import Mathlib

/-!
Verification development for the AgileTrack integration core: a shallow
embedding of the cache key builder and memoizing wrapper
(`src/integrations/cache.py`), the GitHub adapter's metric aggregation
(`src/integrations/github_integration.py`), the integration factory
(`src/integrations/integration_factory.py`) and the Celery sync tasks
(`src/backend/tasks.py`), together with theorems settling the spec claims.
-/

set_option autoImplicit false

/-- A Python value as it occurs in the integration call paths: `None`,
a string, or an int.  (`days` is an int; locators are strings.) -/
inductive PyVal where
  | none
  | str (s : String)
  | int (n : Int)
deriving DecidableEq, Repr

/-- Python `str(value)` for the values above. -/
def PyVal.pyStr : PyVal → String
  | .none => "None"
  | .str s => s
  | .int n => toString n

/-- Python truthiness (`if value:`) for the values above: `None` and the
empty string are falsy, `0` is falsy. -/
def PyVal.truthy : PyVal → Bool
  | .none => false
  | .str s => decide (s ≠ "")
  | .int n => decide (n ≠ 0)

/-- One parameter of a Python function signature: its name and its default
value, if any (`inspect.signature(func).parameters`, excluding `self`). -/
structure PyParam where
  name : String
  dflt : Option PyVal
deriving DecidableEq, Repr

/-- Embedding of `inspect.Signature.bind(*args, **kwargs)` followed by
`BoundArguments.apply_defaults()` for positional-or-keyword parameters
(`cache.py` lines 65-77).  `params` are the parameters after `self`, `pos`
the positional arguments after `self`, `kw` the keyword arguments.  Returns
the bound arguments in parameter order, or `none` where Python raises
`TypeError` (too many positional arguments, unexpected or duplicate keyword
argument, missing required argument). -/
def bindApplyDefaults : List PyParam → List PyVal → List (String × PyVal) →
    Option (List (String × PyVal))
  | [], [], [] => some []
  | [], _ :: _, _ => Option.none
  | [], [], _ :: _ => Option.none
  | p :: ps, v :: vs, kw =>
      if kw.any (fun q => q.1 == p.name) then Option.none
      else (bindApplyDefaults ps vs kw).map (fun rest => (p.name, v) :: rest)
  | p :: ps, [], kw =>
      match kw.find? (fun q => q.1 == p.name) with
      | some q =>
          (bindApplyDefaults ps [] (kw.filter (fun r => !(r.1 == p.name)))).map
            (fun rest => (p.name, q.2) :: rest)
      | Option.none =>
          match p.dflt with
          | some d => (bindApplyDefaults ps [] kw).map (fun rest => (p.name, d) :: rest)
          | Option.none => Option.none

/-- The allow-list of call parameters that participate in the cache key
(`cache.py` line 88). -/
def allowedCacheKeyParams : List String := ["project_key", "board_id", "days"]

/-- The bound arguments that participate in the cache key: recognized
names whose value is not `None` (`cache.py` line 88). -/
def keyRelevant (bound : List (String × PyVal)) : List (String × PyVal) :=
  bound.filter (fun nv => decide (nv.1 ∈ allowedCacheKeyParams ∧ nv.2 ≠ PyVal.none))

/-- Insertion into a list of keyword arguments sorted by key
(for `sorted(kwargs.items())` on the fallback path, `cache.py` line 74). -/
def insertByKey (a : String × PyVal) : List (String × PyVal) → List (String × PyVal)
  | [] => [a]
  | b :: bs => if a.1 ≤ b.1 then a :: b :: bs else b :: insertByKey a bs

/-- Python `sorted(kwargs.items())` (keys are unique, so sorting by key suffices). -/
def sortByKey (l : List (String × PyVal)) : List (String × PyVal) :=
  l.foldr insertByKey []

/-- Embedding of the cache key generation inside `redis_cache.wrapper`
(`cache.py` lines 56-94).  `className` is `instance.__class__.__name__`,
`funcName` is `func.__name__`, `repository_name` the instance's
`repository_name` attribute when it exists (GitHub), `params` the signature
after `self`, `pos`/`kw` the call arguments after `self`.  On a successful
bind, only allow-listed, non-`None` bound arguments contribute; if the bind
raises `TypeError`, the fallback key from raw arguments is used
(lines 70-75).  Finally `":".join(filter(None, key_parts))` drops empty
segments. -/
def make_cache_key (className funcName : String) (repository_name : Option String)
    (params : List PyParam) (pos : List PyVal) (kw : List (String × PyVal)) : String :=
  let base := [className, funcName] ++
    (match repository_name with
     | some r => if r == "" then [] else ["repository_name:" ++ r]
     | Option.none => [])
  let parts :=
    match bindApplyDefaults params pos kw with
    | some bound =>
        base ++ (keyRelevant bound).map (fun (nv : String × PyVal) => nv.1 ++ ":" ++ nv.2.pyStr)
    | Option.none =>
        base ++ pos.map PyVal.pyStr ++
          (sortByKey kw).map (fun (nv : String × PyVal) => nv.1 ++ ":" ++ nv.2.pyStr)
  String.intercalate ":" (parts.filter (fun s => !(s == "")))

/-- The canonical key shape: class name, function name, optional repository
segment, then the relevant `name:value` segments.  Stated from the spec's
§4.1 key contract, to be compared with `make_cache_key`. -/
def keyFromParts (className funcName : String) (repository_name : Option String)
    (rel : List (String × PyVal)) : String :=
  String.intercalate ":"
    ((([className, funcName] ++
      (match repository_name with
       | some r => if r == "" then [] else ["repository_name:" ++ r]
       | Option.none => [])) ++
      rel.map (fun nv => nv.1 ++ ":" ++ nv.2.pyStr)).filter (fun s => !(s == "")))

/-- Outcome of one Redis client operation: a value, or a raised
`redis.exceptions.RedisError`. -/
inductive RedisOutcome (α : Type) where
  | ok (a : α)
  | redisError (msg : String)
deriving DecidableEq, Repr

/-- Observable behaviour of one invocation of `redis_cache.wrapper`
(`cache.py` lines 49-114): the returned value, how many times the wrapped
function was invoked, the attempted `setex` writes as (key, ttl, payload),
and the logged (swallowed) write error, if any. -/
structure WrapperResult (α : Type) where
  value : α
  funcCalls : Nat
  setexAttempts : List (String × Nat × String)
  writeError : Option String
deriving Repr

/-- Embedding of `redis_cache.wrapper` (`cache.py` lines 49-114).
`clientAvailable` is `redis_client is not None` (line 50); `getResult` is
what `redis_client.get(final_cache_key)` returns or raises (lines 98-104,
a raised `RedisError` is logged and execution proceeds as a miss);
a returned value is a hit only when truthy, i.e. non-empty (line 100);
on a hit, `json.loads` (`loads`) of the stored payload is returned with the
function not invoked (lines 100-102); on a miss the function is invoked
once and one `setex(key, ttl, json.dumps(result))` is attempted, whose
`RedisError` is logged and swallowed (lines 106-114).  `funcResult` is the
value `func(*args, **kwargs)` computes when invoked. -/
def redis_cache_wrapper {α : Type} (ttl_seconds : Nat) (clientAvailable : Bool)
    (cacheKey : String) (getResult : RedisOutcome (Option String))
    (setexResult : RedisOutcome Unit) (loads : String → α) (dumps : α → String)
    (funcResult : α) : WrapperResult α :=
  if clientAvailable = false then
    { value := funcResult, funcCalls := 1, setexAttempts := [], writeError := Option.none }
  else
    let hit : Option String :=
      match getResult with
      | .ok (some s) => if s == "" then Option.none else some s
      | .ok Option.none => Option.none
      | .redisError _ => Option.none
    match hit with
    | some s =>
        { value := loads s, funcCalls := 0, setexAttempts := [], writeError := Option.none }
    | Option.none =>
        { value := funcResult, funcCalls := 1,
          setexAttempts := [(cacheKey, ttl_seconds, dumps funcResult)],
          writeError :=
            match setexResult with
            | .ok _ => Option.none
            | .redisError e => some e }

/-- A pull-request row as built by `GitHubIntegration.get_pull_requests`
(`github_integration.py` lines 46-59), restricted to the columns that
`calculate_metrics` reads.  Times are in seconds, as rationals
(`total_seconds()` arithmetic). -/
structure PRRow where
  created_at : ℚ
  merged_at : Option ℚ
deriving DecidableEq, Repr

/-- A commit row (`github_integration.py` lines 75-83), restricted to the
columns that `calculate_metrics` reads. -/
structure CommitRow where
  author : String
  total_changes : ℚ
deriving DecidableEq, Repr

/-- An issue row (`github_integration.py` lines 103-112), restricted to the
columns that `calculate_metrics` reads. -/
structure IssueRow where
  created_at : ℚ
  closed_at : Option ℚ
deriving DecidableEq, Repr

/-- A metric value: count, rational (rate or mean), boolean flag, string,
or a name-to-count distribution. -/
inductive MVal where
  | natv (n : Nat)
  | ratv (q : ℚ)
  | boolv (b : Bool)
  | strv (s : String)
  | distv (d : List (String × Nat))
deriving DecidableEq, Repr

/-- Lookup in a metric-result map (Python `dict` access; keys are unique
here, so first match is the dict value). -/
def mget (m : List (String × MVal)) (k : String) : Option MVal :=
  (m.find? (fun p => p.1 == k)).map (fun p => p.2)

/-- Insertion into a sorted list of strings. -/
def insertStr (a : String) : List String → List String
  | [] => [a]
  | b :: bs => if a ≤ b then a :: b :: bs else b :: insertStr a bs

/-- Sort a list of strings ascending (pandas `groupby` sorts group keys). -/
def sortStr (l : List String) : List String :=
  l.foldr insertStr []

/-- Pandas `df.groupby(col).size().to_dict()`: counts per key, keys sorted
ascending as pandas does. -/
def groupSize (l : List String) : List (String × Nat) :=
  (sortStr l.dedup).map (fun a => (a, l.count a))

/-- Mean of a list of rationals (`Series.mean()`); callers guard against
the empty list as the source does. -/
def listMean (l : List ℚ) : ℚ :=
  l.sum / (l.length : ℚ)

/-- The error result produced by the `except` clause of
`GitHubIntegration.calculate_metrics` (`github_integration.py`
lines 180-186). -/
def githubErrorMetrics (e : String) : List (String × MVal) :=
  [("error", MVal.boolv true),
   ("message", MVal.strv ("Error calculating metrics: " ++ e))]

/-- Embedding of `GitHubIntegration.calculate_metrics`
(`github_integration.py` lines 116-186).  The three raw-data retrievals
(`get_pull_requests`, `get_commits`, `get_issues`) are evaluated in that
order inside the `try`; each is passed in as an `Except` value, an
exception producing the error-carrying result of lines 180-186.  The
aggregation mirrors lines 130-178: PR metrics when the PR set is
non-empty (merge-time mean over merged PRs, count, merge rate), commit
metrics (count, mean size, per-author distribution), issue metrics
(close-time mean, count, close rate); when no block contributed a metric
the `no_activity` sentinel of lines 166-173 is returned, otherwise the
result is tagged `status = active` (line 175). -/
def GitHubIntegration.calculate_metrics (repository_name : String) (days : Nat)
    (pull_requests : Except String (List PRRow))
    (commits : Except String (List CommitRow))
    (issues : Except String (List IssueRow)) : List (String × MVal) :=
  match pull_requests with
  | .error e => githubErrorMetrics e
  | .ok prs =>
    match commits with
    | .error e => githubErrorMetrics e
    | .ok cs =>
      match issues with
      | .error e => githubErrorMetrics e
      | .ok iss =>
        let merged_prs := prs.filter (fun p => p.merged_at.isSome)
        let prMetrics : List (String × MVal) :=
          if prs.isEmpty then []
          else
            (if merged_prs.isEmpty then []
             else [("avg_time_to_merge_hours",
                    MVal.ratv (listMean (merged_prs.map
                      (fun p => (p.merged_at.getD 0 - p.created_at) / 3600))))]) ++
            [("pr_count", MVal.natv prs.length),
             ("pr_merge_rate",
              MVal.ratv (if prs.length > 0 then
                  (merged_prs.length : ℚ) / (prs.length : ℚ) else 0))]
        let commitMetrics : List (String × MVal) :=
          if cs.isEmpty then []
          else
            [("commit_count", MVal.natv cs.length),
             ("avg_commit_size", MVal.ratv (listMean (cs.map (fun c => c.total_changes)))),
             ("author_distribution", MVal.distv (groupSize (cs.map (fun c => c.author))))]
        let closed_issues := iss.filter (fun i => i.closed_at.isSome)
        let issueMetrics : List (String × MVal) :=
          if iss.isEmpty then []
          else
            (if closed_issues.isEmpty then []
             else [("avg_time_to_close_hours",
                    MVal.ratv (listMean (closed_issues.map
                      (fun i => (i.closed_at.getD 0 - i.created_at) / 3600))))]) ++
            [("issue_count", MVal.natv iss.length),
             ("issue_close_rate",
              MVal.ratv (if iss.length > 0 then
                  (closed_issues.length : ℚ) / (iss.length : ℚ) else 0))]
        let metrics := prMetrics ++ commitMetrics ++ issueMetrics
        if metrics.isEmpty then
          [("no_activity", MVal.boolv true),
           ("message", MVal.strv ("No activity found in the repository " ++
             repository_name ++ " in the last " ++ toString days ++ " days")),
           ("status", MVal.strv "valid_but_inactive"),
           ("pr_count", MVal.natv 0),
           ("commit_count", MVal.natv 0),
           ("issue_count", MVal.natv 0)]
        else
          metrics ++ [("status", MVal.strv "active")]

/-- Python `str.lower()` for the ASCII type tags used here, modelled
structurally so it reduces (`integration_type.lower()` in the factory). -/
def pyLower (s : String) : String :=
  String.mk (s.data.map Char.toLower)

/-- A configuration dictionary (`config` parameters of the factory). -/
def Config : Type := List (String × PyVal)

/-- Python `config.get(key)`: the value, or `None` when the key is absent. -/
def Config.get (c : Config) (k : String) : PyVal :=
  ((c.find? (fun p => p.1 == k)).map (fun p => p.2)).getD PyVal.none

/-- Python `config.get(key, default)`. -/
def Config.getWithDefault (c : Config) (k : String) (d : PyVal) : PyVal :=
  ((c.find? (fun p => p.1 == k)).map (fun p => p.2)).getD d

/-- The adapter constructor invocation selected by
`IntegrationFactory.create_integration` (`integration_factory.py`
lines 23-39): which class is constructed, with which config values.  The
constructors' own effects (network handles) are outside this dispatch. -/
inductive ConstructorCall where
  | github (api_token repository : PyVal)
  | jira (server username api_token : PyVal)
  | trello (api_key api_secret token : PyVal)
deriving DecidableEq, Repr

/-- Embedding of `IntegrationFactory.create_integration`
(`integration_factory.py` lines 8-41): dispatch on
`integration_type.lower()`, unknown tags raise
`ValueError("Unsupported integration type: ...")` (line 41). -/
def IntegrationFactory.create_integration (integration_type : String)
    (config : Config) : Except String ConstructorCall :=
  if pyLower integration_type == "github" then
    .ok (.github (config.get "api_token") (config.get "repository"))
  else if pyLower integration_type == "jira" then
    .ok (.jira (config.get "server") (config.get "username") (config.get "api_token"))
  else if pyLower integration_type == "trello" then
    .ok (.trello (config.get "api_key") (config.get "api_secret") (config.get "token"))
  else
    .error ("Unsupported integration type: " ++ integration_type)

/-- The runtime class of an integration instance, as inspected by the
`isinstance` dispatch in `IntegrationFactory.get_metrics`. -/
inductive AdapterInstance where
  | github
  | jira
  | trello
deriving DecidableEq, Repr

/-- The `calculate_metrics` invocation that `IntegrationFactory.get_metrics`
delegates to on its success path (`integration_factory.py` lines 61, 70,
79): adapter method plus the arguments passed. -/
inductive CalcCall where
  | github (days : PyVal)
  | jira (project_key days : PyVal)
  | trello (board_id days : PyVal)
deriving DecidableEq, Repr

/-- Embedding of `IntegrationFactory.get_metrics` (`integration_factory.py`
lines 43-82): `isinstance` dispatch on the instance class; for Jira the
`project_key` and for Trello the `board_id` is read from `config` and a
falsy value raises `ValueError` (lines 67-68, 76-77) before
`calculate_metrics` is delegated to; `days` defaults to 30.  An `.error`
result means no `calculate_metrics` call (and hence no upstream fetch)
happens. -/
def IntegrationFactory.get_metrics (integration_instance : AdapterInstance)
    (config : Config) : Except String CalcCall :=
  match integration_instance with
  | .github =>
      .ok (.github (config.getWithDefault "days" (.int 30)))
  | .jira =>
      let project_key := config.get "project_key"
      let days := config.getWithDefault "days" (.int 30)
      if project_key.truthy = false then
        .error "project_key is required for Jira metrics"
      else
        .ok (.jira project_key days)
  | .trello =>
      let board_id := config.get "board_id"
      let days := config.getWithDefault "days" (.int 30)
      if board_id.truthy = false then
        .error "board_id is required for Trello metrics"
      else
        .ok (.trello board_id days)

/-- The GitHub metric name/description map returned by
`IntegrationFactory.get_supported_metrics` (`integration_factory.py`
lines 95-106). -/
def githubSupportedMetrics : List (String × String) :=
  [("pr_count", "Number of pull requests in the period"),
   ("pr_merge_rate", "Percentage of pull requests that were merged"),
   ("avg_time_to_merge_hours", "Average time to merge pull requests (hours)"),
   ("commit_count", "Number of commits in the period"),
   ("avg_commit_size", "Average size of commits (lines changed)"),
   ("author_distribution", "Distribution of commits by author"),
   ("issue_count", "Number of issues in the period"),
   ("issue_close_rate", "Percentage of issues that were closed"),
   ("avg_time_to_close_hours", "Average time to close issues (hours)")]

/-- The Jira metric map (`integration_factory.py` lines 107-115). -/
def jiraSupportedMetrics : List (String × String) :=
  [("issue_counts_by_type", "Number of issues by type"),
   ("issue_counts_by_status", "Number of issues by status"),
   ("completed_story_points", "Total story points completed"),
   ("assignee_distribution", "Distribution of issues by assignee"),
   ("active_sprint_count", "Number of active sprints"),
   ("completed_sprint_count", "Number of completed sprints")]

/-- The Trello metric map (`integration_factory.py` lines 116-126). -/
def trelloSupportedMetrics : List (String × String) :=
  [("card_counts_by_list", "Number of cards in each list"),
   ("closed_card_count", "Number of closed cards"),
   ("open_card_count", "Number of open cards"),
   ("cards_with_due_count", "Number of cards with due dates"),
   ("overdue_card_count", "Number of overdue cards"),
   ("avg_checklist_completion", "Average checklist completion percentage"),
   ("label_distribution", "Distribution of cards by label"),
   ("member_distribution", "Distribution of cards by member")]

/-- Embedding of `IntegrationFactory.get_supported_metrics`
(`integration_factory.py` lines 84-128): dispatch on
`integration_type.lower()`, unknown tags raise `ValueError` (line 128). -/
def IntegrationFactory.get_supported_metrics (integration_type : String) :
    Except String (List (String × String)) :=
  if pyLower integration_type == "github" then .ok githubSupportedMetrics
  else if pyLower integration_type == "jira" then .ok jiraSupportedMetrics
  else if pyLower integration_type == "trello" then .ok trelloSupportedMetrics
  else .error ("Unsupported integration type: " ++ integration_type)

/-- What `IntegrationFactory.get_metrics` does when the sync tasks call it
for one integration: returns, raises a `ValueError` (configuration error),
or raises some other exception (transient upstream error). -/
inductive MetricsOutcome where
  | ok
  | valueError (msg : String)
  | otherError (msg : String)
deriving DecidableEq, Repr

/-- Observable behaviour of one execution of the body of
`initial_sync_metrics_task` (`tasks.py` lines 27-107): how many times
`last_sync` was committed, and whether the execution re-raised (which is
what requests a Celery retry). -/
structure InitialSyncRun where
  lastSyncUpdates : Nat
  raised : Bool
deriving DecidableEq, Repr

/-- Embedding of one execution of `initial_sync_metrics_task`
(`tasks.py` lines 27-107).  A missing integration returns without commits
(lines 35-37).  On success `last_sync` is committed once (lines 80-83).
A `ValueError` from `get_metrics` commits `last_sync` once and does not
re-raise (lines 84-92).  Any other exception reaches
`raise self.retry(exc=e)` (line 96); the resulting Celery `Retry`
exception passes through the outer `except`'s bare `raise` (line 103), so
the execution re-raises with no commit. -/
def initial_sync_run (integrationFound : Bool) (metrics : MetricsOutcome) :
    InitialSyncRun :=
  if integrationFound = false then
    { lastSyncUpdates := 0, raised := false }
  else
    match metrics with
    | .ok => { lastSyncUpdates := 1, raised := false }
    | .valueError _ => { lastSyncUpdates := 1, raised := false }
    | .otherError _ => { lastSyncUpdates := 0, raised := true }

/-- Outcome of driving a Celery task through its retry policy: total
executions, total `last_sync` commits, the delay before each retry, and
whether the task was abandoned with its final execution still raising. -/
structure CeleryOutcome where
  executions : Nat
  lastSyncUpdates : Nat
  retryDelays : List Nat
  abandoned : Bool
deriving DecidableEq, Repr

/-- Celery's retry driver around `initial_sync_run`: an execution that
raises is re-run after `delay` seconds while retries remain
(`@app.task(bind=True, max_retries=..., default_retry_delay=...)`,
`tasks.py` line 26); when retries are exhausted the task is abandoned.
`metrics i` is the `get_metrics` outcome on the i-th execution. -/
def celeryRetryLoop (delay : Nat) (integrationFound : Bool)
    (metrics : Nat → MetricsOutcome) (attempt : Nat) (retriesLeft : Nat)
    (updates : Nat) (delays : List Nat) : CeleryOutcome :=
  let r := initial_sync_run integrationFound (metrics attempt)
  if r.raised then
    match retriesLeft with
    | 0 => { executions := attempt + 1, lastSyncUpdates := updates + r.lastSyncUpdates,
             retryDelays := delays, abandoned := true }
    | n + 1 =>
        celeryRetryLoop delay integrationFound metrics (attempt + 1) n
          (updates + r.lastSyncUpdates) (delays ++ [delay])
  else
    { executions := attempt + 1, lastSyncUpdates := updates + r.lastSyncUpdates,
      retryDelays := delays, abandoned := false }

/-- The task `initial_sync_metrics_task` under its declared retry policy
`max_retries=3, default_retry_delay=60` (`tasks.py` line 26). -/
def initial_sync_metrics_task_execution (integrationFound : Bool)
    (metrics : Nat → MetricsOutcome) : CeleryOutcome :=
  celeryRetryLoop 60 integrationFound metrics 0 3 0 []

/-- One active integration as seen by the periodic sync loop: whether the
mandatory locator for its type is present in its config (`project_key` for
Jira, `board_id` for Trello; vacuously true for GitHub, `tasks.py`
lines 151-164), and how its `get_metrics` call behaves. -/
structure SyncIntegration where
  requiredLocatorPresent : Bool
  metrics : MetricsOutcome
deriving DecidableEq, Repr

/-- Per-integration step of the loop body of
`periodic_sync_all_integrations_metrics_task` (`tasks.py` lines 126-186):
first component is whether `last_sync` was committed, second whether the
integration counted as a successful sync.  A missing locator logs a
warning and `continue`s with `failed_syncs += 1` (lines 153-164); success
commits `last_sync` (lines 169-172); a `ValueError` commits `last_sync`
and counts as failed (lines 175-181); any other exception is caught,
counted as failed, and does not commit (lines 182-186). -/
def periodic_step (i : SyncIntegration) : Bool × Bool :=
  if i.requiredLocatorPresent = false then (false, false)
  else
    match i.metrics with
    | .ok => (true, true)
    | .valueError _ => (true, false)
    | .otherError _ => (false, false)

/-- Observable behaviour of the periodic sync loop: per-integration
`last_sync` commits in processing order, and the success/failure counters
(`successful_syncs`, `failed_syncs`). -/
structure PeriodicOutcome where
  lastSyncUpdated : List Bool
  successful : Nat
  failed : Nat
deriving DecidableEq, Repr

/-- The loop of `periodic_sync_all_integrations_metrics_task`
(`tasks.py` lines 126-188), processing each active integration in order;
every per-integration exception is caught inside the loop body, so the
loop itself always runs to completion. -/
def periodic_sync_loop : List SyncIntegration → PeriodicOutcome
  | [] => { lastSyncUpdated := [], successful := 0, failed := 0 }
  | i :: rest =>
      let s := periodic_step i
      let r := periodic_sync_loop rest
      { lastSyncUpdated := s.1 :: r.lastSyncUpdated,
        successful := (if s.2 then 1 else 0) + r.successful,
        failed := (if s.2 then 0 else 1) + r.failed }

/-- Embedding of `periodic_sync_all_integrations_metrics_task`
(`tasks.py` lines 110-195): if reading the active-integration list itself
fails, the outer `except` triggers `self.retry` (lines 190-192), modelled
as `.error`; otherwise the loop runs and the task returns normally
(`.ok`) — per-integration failures never escape the loop. -/
def periodic_sync_all_integrations_metrics_task
    (activeIntegrations : Except String (List SyncIntegration)) :
    Except String PeriodicOutcome :=
  match activeIntegrations with
  | .error e => .error e
  | .ok l => .ok (periodic_sync_loop l)

/-- The Redis key-value store contents (most recent write first). -/
def Store : Type := List (String × String)

/-- Embedding of `redis_client.get(key)` against known store contents. -/
def storeGet (st : Store) (k : String) : Option String :=
  (List.find? (fun (p : String × String) => p.1 == k) st).map (fun p => p.2)

/-- Embedding of `redis_client.setex(key, ttl, value)` against known store contents
(the new entry shadows any previous one). -/
def storeSet (st : Store) (k v : String) : Store :=
  (k, v) :: st

/-- Aftermath of invoking one adapter's deployed `calculate_metrics` entry
point: the returned value, how many times the adapter body (and hence its
raw-data retrieval) ran, and the store contents afterwards. -/
structure CachedCall (α : Type) where
  value : α
  computeCalls : Nat
  store : Store

/-- The signature of `TrelloIntegration.calculate_metrics` after `self`:
`(board_id, days=30)` (`trello_integration.py` line 134). -/
def trello_sig : List PyParam :=
  [{ name := "board_id", dflt := Option.none },
   { name := "days", dflt := some (.int 30) }]

/-- The deployed entry point of `TrelloIntegration.calculate_metrics`:
the body is wrapped by `@redis_cache(ttl_seconds=1800)`
(`trello_integration.py` lines 133-134), so a call goes through
`redis_cache.wrapper` with the key built by the key generator (a Trello
instance has no `repository_name` attribute).  `computeResult` is what the
undecorated body would compute; `pos`/`kw` are the call arguments after
`self`. -/
def trello_calculate_metrics_call {α : Type} (pos : List PyVal)
    (kw : List (String × PyVal)) (loads : String → α) (dumps : α → String)
    (computeResult : α) (st : Store) : CachedCall α :=
  let key := make_cache_key "TrelloIntegration" "calculate_metrics" Option.none
    trello_sig pos kw
  let r := redis_cache_wrapper 1800 true key (.ok (storeGet st key)) (.ok ())
    loads dumps computeResult
  { value := r.value, computeCalls := r.funcCalls,
    store := r.setexAttempts.foldl (fun acc a => storeSet acc a.1 a.2.2) st }

/-- The deployed entry point of `GitHubIntegration.calculate_metrics`:
the method carries no cache decorator (`github_integration.py` line 116),
so every call runs the body — and its raw-data retrievals — directly, and
never touches the store. -/
def github_calculate_metrics_call (repository_name : String) (days : Nat)
    (pull_requests : Except String (List PRRow))
    (commits : Except String (List CommitRow))
    (issues : Except String (List IssueRow)) (st : Store) :
    CachedCall (List (String × MVal)) :=
  { value := GitHubIntegration.calculate_metrics repository_name days
      pull_requests commits issues,
    computeCalls := 1, store := st }

/-- The deployed entry point of `JiraIntegration.calculate_metrics`:
the method carries no cache decorator (`jira_integration.py` line 92), so
every call runs the body directly and never touches the store.
`computeResult` is what the body computes. -/
def jira_calculate_metrics_call {α : Type} (computeResult : α) (st : Store) :
    CachedCall α :=
  { value := computeResult, computeCalls := 1, store := st }

/-- Two consecutive identical calls to the deployed Trello entry point
against an initially known store: returns the compute-invocation count of
each call and the second call's value. -/
def trello_two_calls {α : Type} (pos : List PyVal) (kw : List (String × PyVal))
    (loads : String → α) (dumps : α → String) (computeResult : α) (st : Store) :
    Nat × Nat × α :=
  let c1 := trello_calculate_metrics_call pos kw loads dumps computeResult st
  let c2 := trello_calculate_metrics_call pos kw loads dumps computeResult c1.store
  (c1.computeCalls, c2.computeCalls, c2.value)

/-- Two consecutive identical calls to the deployed GitHub entry point:
returns the compute-invocation count of each call. -/
def github_two_calls (repository_name : String) (days : Nat)
    (pull_requests : Except String (List PRRow))
    (commits : Except String (List CommitRow))
    (issues : Except String (List IssueRow)) (st : Store) : Nat × Nat :=
  let c1 := github_calculate_metrics_call repository_name days
    pull_requests commits issues st
  let c2 := github_calculate_metrics_call repository_name days
    pull_requests commits issues c1.store
  (c1.computeCalls, c2.computeCalls)

/-- C1: for every wrapped function and argument list, when the cache read
returns a stored (serialized, hence non-empty) value for the derived key,
the wrapped compute function is not invoked and the deserialized stored
value is returned with no write attempted; when the cache read yields no
value, the compute function is invoked exactly once and exactly one
`setex` write with the configured TTL is attempted, and the computed
result is returned.  (Purity of the key derivation itself is immediate:
`make_cache_key` is a function of exactly its listed inputs.) -/
theorem C1_wrapper_hit_miss {α : Type} (ttl : Nat) (key s : String)
    (setexResult : RedisOutcome Unit) (loads : String → α) (dumps : α → String)
    (funcResult : α) :
    (s ≠ "" →
      (redis_cache_wrapper ttl true key (.ok (some s)) setexResult loads dumps
        funcResult).funcCalls = 0 ∧
      (redis_cache_wrapper ttl true key (.ok (some s)) setexResult loads dumps
        funcResult).value = loads s ∧
      (redis_cache_wrapper ttl true key (.ok (some s)) setexResult loads dumps
        funcResult).setexAttempts = []) ∧
    ((redis_cache_wrapper ttl true key (.ok Option.none) setexResult loads dumps
        funcResult).funcCalls = 1 ∧
      (redis_cache_wrapper ttl true key (.ok Option.none) setexResult loads dumps
        funcResult).value = funcResult ∧
      (redis_cache_wrapper ttl true key (.ok Option.none) setexResult loads dumps
        funcResult).setexAttempts = [(key, ttl, dumps funcResult)]) := by
  constructor
  · intro hs
    simp [redis_cache_wrapper, hs]
  · simp [redis_cache_wrapper]

/-- Witness for C1 at concrete inputs: a stored value `"7"` yields a hit
with zero compute calls; an absent value yields a miss with one compute
call. -/
theorem C1_wrapper_hit_miss_witness :
    (redis_cache_wrapper 1800 true "k" (.ok (some "7")) (.ok ())
      (fun _ => (7 : Nat)) (fun _ => "7") 5).funcCalls = 0 ∧
    (redis_cache_wrapper 1800 true "k" (.ok Option.none) (.ok ())
      (fun _ => (7 : Nat)) (fun _ => "7") 5).funcCalls = 1 :=
  ⟨((C1_wrapper_hit_miss 1800 "k" "7" (.ok ()) (fun _ => (7 : Nat))
      (fun _ => "7") 5).1 (by decide)).1,
   (C1_wrapper_hit_miss 1800 "k" "7" (.ok ()) (fun _ => (7 : Nat))
      (fun _ => "7") 5).2.1⟩

/-- C2: the cache key used by the memoizing wrapper is determined by the
class name, the function name, the instance's `repository_name`, and the
allow-listed (`project_key`, `board_id`, `days`), non-`None` entries of
the bound arguments alone — so unrecognized and `None`-valued parameters
are excluded, and two call shapes that bind to the same arguments (e.g. a
recognized parameter supplied positionally versus as a keyword) produce
the identical key.  Purity holds by construction: the embedding, like the
source's key-building block, reads only these inputs. -/
theorem C2_cache_key_allow_list (className funcName : String)
    (repository_name : Option String) (params : List PyParam)
    (pos : List PyVal) (kw : List (String × PyVal))
    (bound : List (String × PyVal))
    (h : bindApplyDefaults params pos kw = some bound) :
    make_cache_key className funcName repository_name params pos kw =
      keyFromParts className funcName repository_name (keyRelevant bound) ∧
    (∀ (pos' : List PyVal) (kw' : List (String × PyVal)),
      bindApplyDefaults params pos' kw' = some bound →
      make_cache_key className funcName repository_name params pos' kw' =
      make_cache_key className funcName repository_name params pos kw) := by
  have main : ∀ (pos₀ : List PyVal) (kw₀ : List (String × PyVal)),
      bindApplyDefaults params pos₀ kw₀ = some bound →
      make_cache_key className funcName repository_name params pos₀ kw₀ =
        keyFromParts className funcName repository_name (keyRelevant bound) := by
    intro pos₀ kw₀ h₀
    unfold make_cache_key keyFromParts
    rw [h₀]
  exact ⟨main pos kw h,
    fun pos' kw' h' => (main pos' kw' h').trans (main pos kw h).symm⟩

/-- Witness for C2 at the Trello signature `(board_id, days=30)`: supplying
`board_id` positionally and `days` by default binds to the same arguments
as supplying both as keywords, and the two keys coincide (and equal the
documented shape). -/
theorem C2_cache_key_allow_list_witness :
    bindApplyDefaults trello_sig []
      [("board_id", PyVal.str "B"), ("days", PyVal.int 30)] =
      some [("board_id", PyVal.str "B"), ("days", PyVal.int 30)] ∧
    make_cache_key "TrelloIntegration" "calculate_metrics" Option.none
      trello_sig [PyVal.str "B"] [] =
    make_cache_key "TrelloIntegration" "calculate_metrics" Option.none
      trello_sig [] [("board_id", PyVal.str "B"), ("days", PyVal.int 30)] ∧
    make_cache_key "TrelloIntegration" "calculate_metrics" Option.none
      trello_sig [PyVal.str "B"] [] =
      "TrelloIntegration:calculate_metrics:board_id:B:days:30" :=
  ⟨by decide,
   (C2_cache_key_allow_list "TrelloIntegration" "calculate_metrics" Option.none
      trello_sig [] [("board_id", PyVal.str "B"), ("days", PyVal.int 30)]
      [("board_id", PyVal.str "B"), ("days", PyVal.int 30)] (by decide)).2
      [PyVal.str "B"] [] (by decide),
   by decide⟩

/-- C3: a cache-store failure never propagates to the caller of a memoized
function: when the client is unavailable, when the read raises a store
error, and when the write raises a store error (possible only on a miss),
the wrapper returns exactly the computed result; the wrapper is a total
function, mirroring that every `RedisError` in the source is caught
inside the wrapper. -/
theorem C3_wrapper_store_failure {α : Type} (ttl : Nat) (key : String)
    (getResult : RedisOutcome (Option String)) (setexResult : RedisOutcome Unit)
    (loads : String → α) (dumps : α → String) (funcResult : α) :
    ((redis_cache_wrapper ttl false key getResult setexResult loads dumps
        funcResult).value = funcResult ∧
      (redis_cache_wrapper ttl false key getResult setexResult loads dumps
        funcResult).funcCalls = 1) ∧
    (∀ e, getResult = .redisError e →
      (redis_cache_wrapper ttl true key getResult setexResult loads dumps
        funcResult).value = funcResult ∧
      (redis_cache_wrapper ttl true key getResult setexResult loads dumps
        funcResult).funcCalls = 1) ∧
    (∀ e, setexResult = .redisError e →
      (redis_cache_wrapper ttl true key (.ok Option.none) setexResult loads dumps
        funcResult).value = funcResult ∧
      (redis_cache_wrapper ttl true key (.ok Option.none) setexResult loads dumps
        funcResult).funcCalls = 1 ∧
      (redis_cache_wrapper ttl true key (.ok Option.none) setexResult loads dumps
        funcResult).writeError = some e) := by
  refine ⟨by simp [redis_cache_wrapper], ?_, ?_⟩
  · intro e he
    subst he
    simp [redis_cache_wrapper]
  · intro e he
    subst he
    simp [redis_cache_wrapper]

/-- Witness for C3 at concrete inputs: with the client unavailable, with a
read error, and with a write error, the computed result `5` is returned. -/
theorem C3_wrapper_store_failure_witness :
    (redis_cache_wrapper 1800 false "k" (.ok Option.none) (.ok ())
      (fun _ => (0 : Nat)) (fun _ => "") 5).value = 5 ∧
    (redis_cache_wrapper 1800 true "k" (.redisError "down") (.ok ())
      (fun _ => (0 : Nat)) (fun _ => "") 5).value = 5 ∧
    (redis_cache_wrapper 1800 true "k" (.ok Option.none) (.redisError "down")
      (fun _ => (0 : Nat)) (fun _ => "") 5).value = 5 :=
  ⟨(C3_wrapper_store_failure 1800 "k" (.ok Option.none) (.ok ())
      (fun _ => (0 : Nat)) (fun _ => "") 5).1.1,
   ((C3_wrapper_store_failure 1800 "k" (.redisError "down") (.ok ())
      (fun _ => (0 : Nat)) (fun _ => "") 5).2.1 "down" rfl).1,
   ((C3_wrapper_store_failure 1800 "k" (.ok Option.none) (.redisError "down")
      (fun _ => (0 : Nat)) (fun _ => "") 5).2.2 "down" rfl).1⟩

/-- C4: for the source-control adapter's metric computation, whenever the
retrieved pull-request set is non-empty the returned `pr_merge_rate`
equals merged count divided by total count; whenever the pull-request,
commit and issue sets are all empty the result is the non-empty
`no_activity` sentinel with `status = valid_but_inactive` and all three
counts zero. -/
theorem C4_github_merge_rate_and_no_activity (repository_name : String)
    (days : Nat) (prs : List PRRow) (cs : List CommitRow) (iss : List IssueRow) :
    (prs ≠ [] →
      mget (GitHubIntegration.calculate_metrics repository_name days
          (.ok prs) (.ok cs) (.ok iss)) "pr_merge_rate" =
        some (MVal.ratv
          (((prs.filter (fun p => p.merged_at.isSome)).length : ℚ) /
            (prs.length : ℚ)))) ∧
    (prs = [] → cs = [] → iss = [] →
      GitHubIntegration.calculate_metrics repository_name days
          (.ok prs) (.ok cs) (.ok iss) ≠ [] ∧
      mget (GitHubIntegration.calculate_metrics repository_name days
          (.ok prs) (.ok cs) (.ok iss)) "no_activity" = some (MVal.boolv true) ∧
      mget (GitHubIntegration.calculate_metrics repository_name days
          (.ok prs) (.ok cs) (.ok iss)) "status" =
        some (MVal.strv "valid_but_inactive") ∧
      mget (GitHubIntegration.calculate_metrics repository_name days
          (.ok prs) (.ok cs) (.ok iss)) "pr_count" = some (MVal.natv 0) ∧
      mget (GitHubIntegration.calculate_metrics repository_name days
          (.ok prs) (.ok cs) (.ok iss)) "commit_count" = some (MVal.natv 0) ∧
      mget (GitHubIntegration.calculate_metrics repository_name days
          (.ok prs) (.ok cs) (.ok iss)) "issue_count" = some (MVal.natv 0)) := by
  constructor
  · intro hne
    cases prs with
    | nil => exact absurd rfl hne
    | cons p ps =>
        cases hm : ((p :: ps).filter (fun q => q.merged_at.isSome)).isEmpty <;>
          simp [GitHubIntegration.calculate_metrics, mget, hm, Nat.succ_pos]
  · intro h1 h2 h3
    subst h1; subst h2; subst h3
    exact ⟨by simp [GitHubIntegration.calculate_metrics], rfl, rfl, rfl, rfl, rfl⟩

/-- Witness for C4 at concrete inputs: one merged and one open PR give a
merge rate of 1/2; three empty sets give the sentinel. -/
theorem C4_github_merge_rate_and_no_activity_witness :
    mget (GitHubIntegration.calculate_metrics "test/repo" 30
        (.ok [{ created_at := 0, merged_at := some 7200 },
              { created_at := 0, merged_at := Option.none }])
        (.ok []) (.ok [])) "pr_merge_rate" =
      some (MVal.ratv (1 / 2)) ∧
    mget (GitHubIntegration.calculate_metrics "test/repo" 30
        (.ok []) (.ok []) (.ok [])) "status" =
      some (MVal.strv "valid_but_inactive") := by
  constructor
  · have h := (C4_github_merge_rate_and_no_activity "test/repo" 30
      [{ created_at := 0, merged_at := some 7200 },
       { created_at := 0, merged_at := Option.none }] [] []).1 (by decide)
    rw [h]
    norm_num
  · exact ((C4_github_merge_rate_and_no_activity "test/repo" 30 [] [] []).2
      rfl rfl rfl).2.2.1

/-- C9: the source-control adapter's metric computation never raises — it
is a total function here, mirroring the catch-all `try`/`except` — and if
any of the three raw-data retrievals raises, the result carries
`error = True` and a `message` field instead of propagating. -/
theorem C9_github_error_result (repository_name : String) (days : Nat)
    (prsR : Except String (List PRRow)) (csR : Except String (List CommitRow))
    (issR : Except String (List IssueRow))
    (h : (∃ e, prsR = .error e) ∨ (∃ e, csR = .error e) ∨ (∃ e, issR = .error e)) :
    mget (GitHubIntegration.calculate_metrics repository_name days prsR csR issR)
        "error" = some (MVal.boolv true) ∧
    ∃ msg, mget (GitHubIntegration.calculate_metrics repository_name days
        prsR csR issR) "message" = some (MVal.strv msg) := by
  rcases prsR with e | prs
  · exact ⟨rfl, ⟨"Error calculating metrics: " ++ e, rfl⟩⟩
  rcases csR with e | cs
  · exact ⟨rfl, ⟨"Error calculating metrics: " ++ e, rfl⟩⟩
  rcases issR with e | iss
  · exact ⟨rfl, ⟨"Error calculating metrics: " ++ e, rfl⟩⟩
  rcases h with ⟨e, he⟩ | ⟨e, he⟩ | ⟨e, he⟩ <;> exact (Except.noConfusion he)

/-- Witness for C9 at a concrete input: a failing pull-request retrieval
produces the error-carrying result. -/
theorem C9_github_error_result_witness :
    mget (GitHubIntegration.calculate_metrics "test/repo" 30
        (.error "API rate limit exceeded") (.ok []) (.ok [])) "error" =
      some (MVal.boolv true) :=
  (C9_github_error_result "test/repo" 30 (.error "API rate limit exceeded")
    (.ok []) (.ok []) (Or.inl ⟨"API rate limit exceeded", rfl⟩)).1

/-- C5: the factory's adapter creation raises the unsupported-type error
for every type tag outside github/jira/trello (after lowercasing), and its
metric dispatch raises the configuration error when the mandatory locator
is missing (falsy) in the parameters — `project_key` for the Jira adapter,
`board_id` for the Trello adapter.  In the embedding an `.error` result
carries no `ConstructorCall`/`CalcCall`, i.e. no adapter construction,
metric computation or upstream call happens on these paths. -/
theorem C5_factory_errors (t : String) (config : Config) :
    (pyLower t ∉ (["github", "jira", "trello"] : List String) →
      IntegrationFactory.create_integration t config =
        .error ("Unsupported integration type: " ++ t)) ∧
    ((Config.get config "project_key").truthy = false →
      IntegrationFactory.get_metrics .jira config =
        .error "project_key is required for Jira metrics") ∧
    ((Config.get config "board_id").truthy = false →
      IntegrationFactory.get_metrics .trello config =
        .error "board_id is required for Trello metrics") := by
  refine ⟨?_, ?_, ?_⟩
  · intro h
    simp only [List.mem_cons, List.not_mem_nil, or_false, not_or] at h
    obtain ⟨h1, h2, h3⟩ := h
    simp [IntegrationFactory.create_integration, h1, h2, h3]
  · intro h
    simp [IntegrationFactory.get_metrics, h]
  · intro h
    simp [IntegrationFactory.get_metrics, h]

/-- Witness for C5 at concrete inputs: the tag `"slack"` is unsupported,
and the empty config is missing both locators. -/
theorem C5_factory_errors_witness :
    IntegrationFactory.create_integration "slack" [] =
      .error "Unsupported integration type: slack" ∧
    IntegrationFactory.get_metrics .jira [] =
      .error "project_key is required for Jira metrics" ∧
    IntegrationFactory.get_metrics .trello [] =
      .error "board_id is required for Trello metrics" :=
  ⟨(C5_factory_errors "slack" []).1 (by decide),
   (C5_factory_errors "slack" []).2.1 (by decide),
   (C5_factory_errors "slack" []).2.2 (by decide)⟩

/-- C10 (implicit): the factory's type-tag dispatch is case-insensitive —
every tag whose lowercasing is `"github"`, `"jira"` or `"trello"` selects
the corresponding constructor in `create_integration` and the
corresponding metric map in `get_supported_metrics`; the unsupported-type
error is raised exactly for tags whose lowercasing is outside these
three. -/
theorem C10_case_insensitive_dispatch (t : String) (config : Config) :
    (pyLower t = "github" →
      IntegrationFactory.create_integration t config =
        .ok (.github (Config.get config "api_token")
          (Config.get config "repository")) ∧
      IntegrationFactory.get_supported_metrics t = .ok githubSupportedMetrics) ∧
    (pyLower t = "jira" →
      IntegrationFactory.create_integration t config =
        .ok (.jira (Config.get config "server") (Config.get config "username")
          (Config.get config "api_token")) ∧
      IntegrationFactory.get_supported_metrics t = .ok jiraSupportedMetrics) ∧
    (pyLower t = "trello" →
      IntegrationFactory.create_integration t config =
        .ok (.trello (Config.get config "api_key") (Config.get config "api_secret")
          (Config.get config "token")) ∧
      IntegrationFactory.get_supported_metrics t = .ok trelloSupportedMetrics) ∧
    (pyLower t ∉ (["github", "jira", "trello"] : List String) →
      IntegrationFactory.create_integration t config =
        .error ("Unsupported integration type: " ++ t) ∧
      IntegrationFactory.get_supported_metrics t =
        .error ("Unsupported integration type: " ++ t)) := by
  refine ⟨?_, ?_, ?_, ?_⟩
  · intro h
    constructor <;>
      simp [IntegrationFactory.create_integration,
        IntegrationFactory.get_supported_metrics, h]
  · intro h
    constructor <;>
      simp [IntegrationFactory.create_integration,
        IntegrationFactory.get_supported_metrics, h]
  · intro h
    constructor <;>
      simp [IntegrationFactory.create_integration,
        IntegrationFactory.get_supported_metrics, h]
  · intro h
    simp only [List.mem_cons, List.not_mem_nil, or_false, not_or] at h
    obtain ⟨h1, h2, h3⟩ := h
    constructor <;>
      simp [IntegrationFactory.create_integration,
        IntegrationFactory.get_supported_metrics, h1, h2, h3]

/-- Witness for C10 at concrete inputs: the mixed-case tags `"GitHub"`,
`"JIRA"` and `"Trello"` dispatch to their adapters, and `"slack"` is
rejected. -/
theorem C10_case_insensitive_dispatch_witness :
    IntegrationFactory.create_integration "GitHub" [] =
      .ok (.github PyVal.none PyVal.none) ∧
    IntegrationFactory.get_supported_metrics "JIRA" = .ok jiraSupportedMetrics ∧
    IntegrationFactory.get_supported_metrics "Trello" = .ok trelloSupportedMetrics ∧
    IntegrationFactory.get_supported_metrics "slack" =
      .error "Unsupported integration type: slack" :=
  ⟨((C10_case_insensitive_dispatch "GitHub" []).1 (by decide)).1,
   ((C10_case_insensitive_dispatch "JIRA" []).2.1 (by decide)).2,
   ((C10_case_insensitive_dispatch "Trello" []).2.2.1 (by decide)).2,
   ((C10_case_insensitive_dispatch "slack" []).2.2.2 (by decide)).2⟩

/-- C6: for the initial sync on a single (found) integration, a
`ValueError` from metric computation commits `last_sync` exactly once and
is not retried (one execution, no retry delays); any other exception is
retried up to the bound of 3 attempts with the fixed 60-second delay and,
on exhaustion, the task is abandoned with `last_sync` never committed. -/
theorem C6_initial_sync_retry_policy (m : String) (metrics : Nat → MetricsOutcome) :
    (metrics 0 = .valueError m →
      initial_sync_metrics_task_execution true metrics =
        { executions := 1, lastSyncUpdates := 1, retryDelays := [],
          abandoned := false }) ∧
    ((∀ i, metrics i = .otherError m) →
      initial_sync_metrics_task_execution true metrics =
        { executions := 4, lastSyncUpdates := 0, retryDelays := [60, 60, 60],
          abandoned := true }) := by
  constructor
  · intro h
    simp [initial_sync_metrics_task_execution, celeryRetryLoop,
      initial_sync_run, h]
  · intro h
    simp [initial_sync_metrics_task_execution, celeryRetryLoop,
      initial_sync_run, h 0, h 1, h 2, h 3]

/-- Witness for C6 at concrete outcomes: a configuration `ValueError`
commits once without retrying; a persistent transient error exhausts the
three retries with no commit. -/
theorem C6_initial_sync_retry_policy_witness :
    initial_sync_metrics_task_execution true
        (fun _ => .valueError "project_key is required for Jira metrics") =
      { executions := 1, lastSyncUpdates := 1, retryDelays := [],
        abandoned := false } ∧
    initial_sync_metrics_task_execution true (fun _ => .otherError "API timeout") =
      { executions := 4, lastSyncUpdates := 0, retryDelays := [60, 60, 60],
        abandoned := true } :=
  ⟨(C6_initial_sync_retry_policy "project_key is required for Jira metrics"
      (fun _ => .valueError "project_key is required for Jira metrics")).1 rfl,
   (C6_initial_sync_retry_policy "API timeout"
      (fun _ => .otherError "API timeout")).2 (fun _ => rfl)⟩

/-- An active integration whose sync succeeds: locator present,
`get_metrics` returns normally. -/
def goodSync : SyncIntegration :=
  { requiredLocatorPresent := true, metrics := .ok }

/-- The periodic loop on a list of successfully syncing integrations
commits `last_sync` for each of them and counts no failures. -/
theorem periodic_sync_loop_all_good (l : List SyncIntegration)
    (h : ∀ x ∈ l, x = goodSync) :
    periodic_sync_loop l =
      { lastSyncUpdated := l.map (fun _ => true), successful := l.length,
        failed := 0 } := by
  induction l with
  | nil => rfl
  | cons a as ih =>
      have ha : a = goodSync := h a (by simp)
      subst ha
      simp [periodic_sync_loop, periodic_step, goodSync, Nat.add_comm,
        ih (fun x hx => h x (List.mem_cons_of_mem _ hx))]

/-- The periodic loop distributes over list concatenation: the loop
processes integrations independently and in order. -/
theorem periodic_sync_loop_append (l1 l2 : List SyncIntegration) :
    periodic_sync_loop (l1 ++ l2) =
      { lastSyncUpdated := (periodic_sync_loop l1).lastSyncUpdated ++
          (periodic_sync_loop l2).lastSyncUpdated,
        successful := (periodic_sync_loop l1).successful +
          (periodic_sync_loop l2).successful,
        failed := (periodic_sync_loop l1).failed +
          (periodic_sync_loop l2).failed } := by
  induction l1 with
  | nil => simp [periodic_sync_loop]
  | cons a as ih => simp [periodic_sync_loop, ih, Nat.add_assoc]

/-- An active integration whose metric computation raises a
non-configuration exception with message `m`. -/
def badSync (m : String) : SyncIntegration :=
  { requiredLocatorPresent := true, metrics := .otherError m }

/-- C7: over any batch of active integrations in which exactly one raises
a non-configuration exception during metric computation and the rest sync
successfully, every other integration has `last_sync` committed, the
failing one does not, every integration after the failing one is still
processed (its commit flag appears in the outcome), and the task completes
normally (`.ok`, no raise). -/
theorem C7_periodic_batch_isolation (pre post : List SyncIntegration) (m : String)
    (hpre : ∀ x ∈ pre, x = goodSync) (hpost : ∀ x ∈ post, x = goodSync) :
    periodic_sync_all_integrations_metrics_task
        (.ok (pre ++ badSync m :: post)) =
      .ok { lastSyncUpdated := pre.map (fun _ => true) ++
              false :: post.map (fun _ => true),
            successful := pre.length + post.length,
            failed := 1 } := by
  have hbad : periodic_sync_loop (badSync m :: post) =
      { lastSyncUpdated := false :: post.map (fun _ => true),
        successful := post.length, failed := 1 } := by
    simp [periodic_sync_loop, periodic_step, badSync,
      periodic_sync_loop_all_good post hpost]
  simp [periodic_sync_all_integrations_metrics_task, periodic_sync_loop_append,
    periodic_sync_loop_all_good pre hpre, hbad]

/-- Witness for C7 at a concrete batch of three integrations where the
middle one raises a transient error: the first and third commit
`last_sync`, the middle one does not, and the task returns normally. -/
theorem C7_periodic_batch_isolation_witness :
    periodic_sync_all_integrations_metrics_task
        (.ok [goodSync, badSync "HTTP 500", goodSync]) =
      .ok { lastSyncUpdated := [true, false, true], successful := 2, failed := 1 } :=
  C7_periodic_batch_isolation [goodSync] [goodSync] "HTTP 500"
    (fun x hx => by simpa using hx) (fun x hx => by simpa using hx)

/-- C8 evaluation: the deployed `GitHubIntegration.calculate_metrics` and
`JiraIntegration.calculate_metrics` entry points are not wrapped by the
cache decorator, so a second call with identical parameters runs the body
— and its raw-data retrieval — again (second compute count 1, not 0),
while the decorated `TrelloIntegration.calculate_metrics` entry point
serves the second identical call from the cache with zero compute calls
and the identical serialized result.  This contradicts the claim (and the
repository's own integration tests) for the source-control and
issue-tracker adapters. -/
theorem C8_adapter_caching_divergence :
    github_two_calls "test/repo_caching_gh" 30 (.ok []) (.ok []) (.ok []) [] =
      (1, 1) ∧
    ((jira_calculate_metrics_call "jira-metrics"
        ((jira_calculate_metrics_call "jira-metrics" [] :
          CachedCall String)).store : CachedCall String)).computeCalls = 1 ∧
    trello_two_calls [] [("board_id", PyVal.str "BOARDX"), ("days", PyVal.int 15)]
        (fun s => s) (fun s => s) "trello-metrics" [] =
      (1, 0, "trello-metrics") := by
  refine ⟨by decide, by decide, by decide⟩
